import Mathlib

/-!
Verification development for the Unite-Hub scraping core.

This file gives a shallow embedding, in Lean 4, of the scraping modules of
the repository (web-scraper.py, safe-scraper.py, vpn-integration.py,
competitor-intelligence.py) and proves or refutes the frozen specification
claims about them.  Machine integers are modelled as Nat with explicit
reduction modulo 2 ^ 32 where the source (MD5) wraps; Python functions that
can raise are modelled with Except; Python Optional values with Option;
Python truthiness checks are made explicit.
-/

/-! ## MD5

SafeScraper._get_cache_key computes hashlib.md5(url.encode()).hexdigest().
The following is a faithful executable model of MD5 (RFC 1321) over byte
lists, with 32-bit words represented as Nat reduced modulo 2 ^ 32.
-/

deriving instance DecidableEq for Except

namespace MD5

def pow32 : Nat := 4294967296

def add32 (a b : Nat) : Nat := (a + b) % pow32

def not32 (a : Nat) : Nat := 4294967295 - a

def rotl32 (x s : Nat) : Nat := ((x <<< s) ||| (x >>> (32 - s))) % pow32

/-- Round constants K of RFC 1321 (floor(abs(sin(i + 1)) * 2 ^ 32)). -/
def Ktable : List Nat :=
  [0xd76aa478, 0xe8c7b756, 0x242070db, 0xc1bdceee,
   0xf57c0faf, 0x4787c62a, 0xa8304613, 0xfd469501,
   0x698098d8, 0x8b44f7af, 0xffff5bb1, 0x895cd7be,
   0x6b901122, 0xfd987193, 0xa679438e, 0x49b40821,
   0xf61e2562, 0xc040b340, 0x265e5a51, 0xe9b6c7aa,
   0xd62f105d, 0x02441453, 0xd8a1e681, 0xe7d3fbc8,
   0x21e1cde6, 0xc33707d6, 0xf4d50d87, 0x455a14ed,
   0xa9e3e905, 0xfcefa3f8, 0x676f02d9, 0x8d2a4c8a,
   0xfffa3942, 0x8771f681, 0x6d9d6122, 0xfde5380c,
   0xa4beea44, 0x4bdecfa9, 0xf6bb4b60, 0xbebfbc70,
   0x289b7ec6, 0xeaa127fa, 0xd4ef3085, 0x04881d05,
   0xd9d4d039, 0xe6db99e5, 0x1fa27cf8, 0xc4ac5665,
   0xf4292244, 0x432aff97, 0xab9423a7, 0xfc93a039,
   0x655b59c3, 0x8f0ccc92, 0xffeff47d, 0x85845dd1,
   0x6fa87e4f, 0xfe2ce6e0, 0xa3014314, 0x4e0811a1,
   0xf7537e82, 0xbd3af235, 0x2ad7d2bb, 0xeb86d391]

/-- Per-round left-rotation amounts of RFC 1321. -/
def Stable : List Nat :=
  [7, 12, 17, 22, 7, 12, 17, 22, 7, 12, 17, 22, 7, 12, 17, 22,
   5, 9, 14, 20, 5, 9, 14, 20, 5, 9, 14, 20, 5, 9, 14, 20,
   4, 11, 16, 23, 4, 11, 16, 23, 4, 11, 16, 23, 4, 11, 16, 23,
   6, 10, 15, 21, 6, 10, 15, 21, 6, 10, 15, 21, 6, 10, 15, 21]

structure MDState where
  a : Nat
  b : Nat
  c : Nat
  d : Nat

def auxF (b c d : Nat) : Nat := (b &&& c) ||| (not32 b &&& d)

def auxG (b c d : Nat) : Nat := (d &&& b) ||| (not32 d &&& c)

def auxH (b c d : Nat) : Nat := b ^^^ c ^^^ d

def auxI (b c d : Nat) : Nat := c ^^^ (b ||| not32 d)

/-- Little-endian byte serialisation of a word into count bytes. -/
def toLEBytes (n count : Nat) : List Nat :=
  (List.range count).map (fun i => (n >>> (8 * i)) &&& 0xFF)

/-- Word j (little-endian) of a 64-byte chunk. -/
def chunkWord (chunk : List Nat) (j : Nat) : Nat :=
  chunk.getD (4 * j) 0 + (chunk.getD (4 * j + 1) 0) <<< 8 +
    (chunk.getD (4 * j + 2) 0) <<< 16 + (chunk.getD (4 * j + 3) 0) <<< 24

/-- One of the 64 MD5 operations. -/
def step (M : Nat → Nat) (st : MDState) (i : Nat) : MDState :=
  let fg :=
    if i < 16 then (auxF st.b st.c st.d, i)
    else if i < 32 then (auxG st.b st.c st.d, (5 * i + 1) % 16)
    else if i < 48 then (auxH st.b st.c st.d, (3 * i + 5) % 16)
    else (auxI st.b st.c st.d, (7 * i) % 16)
  let tmp := add32 (add32 (add32 st.a fg.1) (Ktable.getD i 0)) (M fg.2)
  { a := st.d, b := add32 st.b (rotl32 tmp (Stable.getD i 0)), c := st.b, d := st.c }

def processChunk (st : MDState) (chunk : List Nat) : MDState :=
  let M := chunkWord chunk
  let r := (List.range 64).foldl (step M) st
  { a := add32 st.a r.a, b := add32 st.b r.b, c := add32 st.c r.c, d := add32 st.d r.d }

/-- MD5 padding: append 0x80, zero bytes to 56 mod 64, then the 64-bit
little-endian bit length of the original message. -/
def padMessage (msg : List Nat) : List Nat :=
  let len := msg.length
  let z := (119 - len % 64) % 64
  msg ++ [0x80] ++ List.replicate z 0 ++ toLEBytes ((len * 8) % 2 ^ 64) 8

def toChunksAux : Nat → List Nat → List (List Nat)
  | 0, _ => []
  | n + 1, l => l.take 64 :: toChunksAux n (l.drop 64)

/-- Split a byte list into 64-byte chunks (the list length is a positive
multiple of 64 after padding). -/
def toChunks (l : List Nat) : List (List Nat) := toChunksAux ((l.length + 63) / 64) l

def initState : MDState := { a := 0x67452301, b := 0xefcdab89, c := 0x98badcfe, d := 0x10325476 }

def hexDigit (n : Nat) : Char :=
  if n < 10 then Char.ofNat (48 + n) else Char.ofNat (87 + n)

def byteToHex (b : Nat) : List Char := [hexDigit (b / 16), hexDigit (b % 16)]

/-- Hex digest of an MD5 hash of a byte list, as hashlib's hexdigest. -/
def md5Hex (msg : List Nat) : String :=
  let fin := (toChunks (padMessage msg)).foldl processChunk initState
  let bytes := toLEBytes fin.a 4 ++ toLEBytes fin.b 4 ++ toLEBytes fin.c 4 ++ toLEBytes fin.d 4
  String.mk (bytes.map byteToHex).flatten

/-- UTF-8 encoding of one character, as Python's str.encode(). -/
def utf8Char (c : Char) : List Nat :=
  let n := c.toNat
  if n < 0x80 then [n]
  else if n < 0x800 then [0xC0 ||| (n >>> 6), 0x80 ||| (n &&& 0x3F)]
  else if n < 0x10000 then
    [0xE0 ||| (n >>> 12), 0x80 ||| ((n >>> 6) &&& 0x3F), 0x80 ||| (n &&& 0x3F)]
  else
    [0xF0 ||| (n >>> 18), 0x80 ||| ((n >>> 12) &&& 0x3F),
     0x80 ||| ((n >>> 6) &&& 0x3F), 0x80 ||| (n &&& 0x3F)]

/-- UTF-8 byte encoding of a string, as Python's str.encode(). -/
def utf8Bytes (s : String) : List Nat := (s.data.map utf8Char).flatten

end MD5

/-! ## String helpers

Executable models of the Python string operations the sources use
(str.split with a nonempty separator, str.strip, str.join, lexicographic
comparison, prefix test), written by structural recursion over the
character list of the string.
-/

namespace Str

def startsWithL : List Char → List Char → Bool
  | _, [] => true
  | [], _ :: _ => false
  | x :: xs, y :: ys => x = y && startsWithL xs ys

/-- Python s.startswith(p). -/
def startsWithS (s p : String) : Bool := startsWithL s.data p.data

def splitOnAux (sep : List Char) : Nat → List Char → List Char → List (List Char)
  | _, acc, [] => [acc.reverse]
  | 0, acc, l => [acc.reverse ++ l]
  | fuel + 1, acc, x :: xs =>
    if startsWithL (x :: xs) sep then
      acc.reverse :: splitOnAux sep fuel [] ((x :: xs).drop sep.length)
    else
      splitOnAux sep fuel (x :: acc) xs

/-- Python s.split(sep) for a nonempty separator sep. -/
def splitOnS (s sep : String) : List String :=
  if sep.data.isEmpty then [s]
  else (splitOnAux sep.data s.data.length [] s.data).map String.mk

def isSpaceChar (c : Char) : Bool :=
  c = ' ' || c = '\t' || c = '\n' || c = '\r' || c = '\x0b' || c = '\x0c'

/-- Python s.strip(). -/
def trimS (s : String) : String :=
  String.mk (((s.data.dropWhile isSpaceChar).reverse.dropWhile isSpaceChar).reverse)

/-- Python sep.join(parts). -/
def joinS (sep : String) : List String → String
  | [] => ""
  | x :: xs => xs.foldl (fun acc y => acc ++ sep ++ y) x

def lexLeL : List Char → List Char → Bool
  | [], _ => true
  | _ :: _, [] => false
  | x :: xs, y :: ys =>
    if x.toNat = y.toNat then lexLeL xs ys else decide (x.toNat < y.toNat)

/-- Lexicographic string comparison, as Python sorting of strings. -/
def leS (a b : String) : Bool := lexLeL a.data b.data

end Str

/-! ## WebScraper (web-scraper.py)

WebScraper.fetch_page validates the URL with validators.url, performs
session.get, calls raise_for_status, and on any requests.RequestException
logs and re-raises.  The whole method is wrapped in
tenacity @retry(stop=stop_after_attempt(3), wait=wait_exponential(multiplier=1, min=4, max=10)),
which retries on every exception and, after the third failed attempt,
raises tenacity.RetryError to the caller.
-/

namespace WS

/-- Exceptions of the requests library relevant to fetch_page: a timeout, a
connection-level error, or an HTTPError raised by response.raise_for_status
for a status code of 400 or above. -/
inductive ReqError where
  | timeout : ReqError
  | connectionError : ReqError
  | httpError (status : Nat) : ReqError
deriving DecidableEq

/-- Result of one session.get call: either a raised RequestException or a
response carrying a status code and a body. -/
structure HttpResponse where
  status : Nat
  body : String
deriving DecidableEq

/-- Model of the validators.url check (an external library capability): the
URL must carry an http or https scheme followed by a nonempty host. -/
def validators_url (u : String) : Bool :=
  match Str.splitOnS u "://" with
  | [scheme, rest] =>
    (scheme = "http" || scheme = "https") &&
      ((Str.splitOnS rest "/").headD "") ≠ ""
  | _ => false

/-- Body of one attempt of WebScraper.fetch_page (the function inside the
retry decorator): an invalid URL returns None without touching the network;
a session.get exception is re-raised; raise_for_status raises HTTPError for
status >= 400; otherwise the response text is returned (after the
rate-limiting sleep of self.delay, which has no observable effect here). -/
def fetch_page_once (valid : Bool) (net : Except ReqError HttpResponse) :
    Except ReqError (Option String) :=
  if !valid then .ok none
  else
    match net with
    | .error e => .error e
    | .ok r => if r.status ≥ 400 then .error (.httpError r.status) else .ok (some r.body)

/-- Wait prescribed by tenacity's wait_exponential(multiplier=1, min=4, max=10)
after the k-th failed attempt: 2 ^ k clamped into the interval from 4 to 10
seconds. -/
def waitExp (k : Nat) : Nat := max 4 (min (2 ^ k) 10)

/-- Trace of a call protected by the tenacity retry decorator: how many
attempts ran, the backoff waits slept between attempts, and the outcome.
An .error outcome means an exception (tenacity.RetryError wrapping the
recorded last exception) propagates to the caller. -/
structure RetryTrace where
  attempts : Nat
  waits : List Nat
  outcome : Except ReqError (Option String)
deriving DecidableEq

/-- Tenacity retry loop with stop_after_attempt: run the attempt numbered
attempt; on a normal return stop; on an exception, if no retries remain the
exception escapes as RetryError, else sleep the exponential backoff and
retry. -/
def runRetry (once : Nat → Except ReqError (Option String)) :
    Nat → Nat → RetryTrace
  | attempt, 0 => ⟨1, [], once attempt⟩
  | attempt, retriesLeft + 1 =>
    match once attempt with
    | .ok v => ⟨1, [], .ok v⟩
    | .error _ =>
      let rest := runRetry once (attempt + 1) retriesLeft
      ⟨rest.attempts + 1, waitExp attempt :: rest.waits, rest.outcome⟩

/-- WebScraper.fetch_page: three attempts total, exponential backoff between
them, over a per-attempt network oracle net. -/
def fetch_page (url : String) (net : Nat → Except ReqError HttpResponse) : RetryTrace :=
  runRetry (fun i => fetch_page_once (validators_url url) (net i)) 1 2

/-- Network oracle built from three prescribed per-attempt outcomes. -/
def mkNet (a1 a2 a3 : Except ReqError HttpResponse) : Nat → Except ReqError HttpResponse :=
  fun n => if n = 1 then a1 else if n = 2 then a2 else a3

end WS

/-! ## SafeScraper (safe-scraper.py)

SafeScraper extends WebScraper with a session request budget, an md5-keyed
24-hour file cache, and a random inter-request delay.  Its fetch_page
checks the budget, then the cache, then sleeps (except before the first
request), then delegates to WebScraper.fetch_page, and on a truthy result
increments the request counter and writes the cache.
-/

namespace SS

/-- Cache state: association list from derived key to capture timestamp
(seconds) and html, first match wins, so consing models file overwrite. -/
def Cache := List (String × Nat × String)

/-- Mutable state of a SafeScraper relevant to fetch_page. -/
structure SafeState where
  request_count : Nat
  max_requests : Nat
  cache_enabled : Bool
  cache : List (String × Nat × String)
deriving DecidableEq

/-- SafeScraper._get_cache_key: hashlib.md5(url.encode()).hexdigest(). -/
def get_cache_key (url : String) : String := MD5.md5Hex (MD5.utf8Bytes url)

def lookupCache (c : List (String × Nat × String)) (k : String) : Option (Nat × String) :=
  match c with
  | [] => none
  | (k0, e) :: rest => if k0 = k then some e else lookupCache rest k

/-- TTL of the response cache: 24 hours, in seconds. -/
def ttlSeconds : Nat := 86400

/-- SafeScraper._get_cached_response at time now: none when caching is
disabled, the entry is missing (file absent or unreadable), or the entry is
older than 24 hours; otherwise the cached html. -/
def get_cached_response (s : SafeState) (url : String) (now : Nat) : Option String :=
  if !s.cache_enabled then none
  else
    match lookupCache s.cache (get_cache_key url) with
    | none => none
    | some (t, html) => if now - t > ttlSeconds then none else some html

/-- SafeScraper._save_to_cache at time now: a no-op when caching is
disabled, otherwise overwrites the entry for the derived key. -/
def save_to_cache (s : SafeState) (url html : String) (now : Nat) :
    List (String × Nat × String) :=
  if !s.cache_enabled then s.cache
  else (get_cache_key url, now, html) :: s.cache

/-- Python truthiness of an Optional[str]: present and nonempty. -/
def truthy : Option String → Bool
  | some h => h ≠ ""
  | none => false

/-- Observable trace of one SafeScraper.fetch_page call: the returned value
(or the exception propagated from the parent fetch), the state after the
call, whether the inter-request delay was slept, and whether a physical
network request (a call to WebScraper.fetch_page) was issued. -/
structure FetchTrace where
  result : Except WS.ReqError (Option String)
  state : SafeState
  slept : Bool
  physical : Bool
deriving DecidableEq

/-- SafeScraper.fetch_page at time now, with net the outcome of the
delegated WebScraper.fetch_page call (which may itself raise, see WS).
Order of operations as in the source: request-limit check first, then the
cache lookup, then the randomised delay (skipped before the first request),
then the physical fetch; on a truthy result the counter is incremented and
the response cached. -/
def fetch_page (s : SafeState) (url : String) (now : Nat)
    (net : Except WS.ReqError (Option String)) : FetchTrace :=
  if s.request_count ≥ s.max_requests then
    { result := .ok none, state := s, slept := false, physical := false }
  else
    let cached := get_cached_response s url now
    if truthy cached then
      { result := .ok cached, state := s, slept := false, physical := false }
    else
      let slept := s.request_count > 0
      match net with
      | .error e => { result := .error e, state := s, slept := slept, physical := true }
      | .ok html =>
        if truthy html then
          { result := .ok html,
            state := { s with
              request_count := s.request_count + 1,
              cache := save_to_cache s url (html.getD "") now },
            slept := slept, physical := true }
        else
          { result := .ok html, state := s, slept := slept, physical := true }

/-- SafeScraper.get_session_stats: requests_remaining is computed as the
Python integer max_requests - request_count. -/
structure SessionStats where
  requests_made : Nat
  requests_remaining : Int
  cache_enabled : Bool

def get_session_stats (s : SafeState) : SessionStats :=
  { requests_made := s.request_count,
    requests_remaining := (s.max_requests : Int) - (s.request_count : Int),
    cache_enabled := s.cache_enabled }

/-- Normalized form of a URL as the specification describes it (this
definition is modelled from the spec, not the source, for comparison with
the source's key derivation): everything before the query kept as is, the
query parameters sorted. -/
def normalize_url (u : String) : String :=
  match Str.splitOnS u "?" with
  | [] => u
  | [p] => p
  | p :: rest =>
    let q := Str.joinS "?" rest
    p ++ "?" ++ Str.joinS "&" ((Str.splitOnS q "&").foldr insertSorted [])
where
  insertSorted (x : String) : List String → List String
    | [] => [x]
    | y :: ys => if Str.leS x y then x :: y :: ys else y :: insertSorted x ys

end SS

/-! ## VPNManager (vpn-integration.py)

VPNManager holds a list of VPNConfig entries, a cursor current_vpn_index
and an active_vpn.  rotate_vpn returns None on an empty pool, otherwise
advances the cursor circularly and makes the endpoint at the new cursor
active.
-/

namespace VPN

/-- VPNConfig dataclass. -/
structure VPNConfig where
  protocol : String
  host : String
  port : Nat
  username : Option String := none
  password : Option String := none
  enabled : Bool := true
  name : Option String := none
deriving DecidableEq

/-- State of a VPNManager relevant to rotation. -/
structure VPNManager where
  vpn_configs : List VPNConfig
  current_vpn_index : Nat
  active_vpn : Option VPNConfig
deriving DecidableEq

/-- VPNManager.rotate_vpn: on an empty pool return None and leave the state
unchanged; otherwise set the cursor to (cursor + 1) mod pool length, make
the endpoint there active, and return it. -/
def rotate_vpn (m : VPNManager) : Option VPNConfig × VPNManager :=
  if h : m.vpn_configs.length = 0 then (none, m)
  else
    let idx := (m.current_vpn_index + 1) % m.vpn_configs.length
    let a := m.vpn_configs.get ⟨idx, Nat.mod_lt _ (Nat.pos_of_ne_zero h)⟩
    (some a, { m with current_vpn_index := idx, active_vpn := some a })

/-- Iterated rotation (the state after n successive rotate_vpn calls). -/
def rotateN (m : VPNManager) : Nat → VPNManager
  | 0 => m
  | n + 1 => (rotate_vpn (rotateN m n)).2

end VPN

/-! ## CompetitorIntelligence.monitor_changes (competitor-intelligence.py)

monitor_changes runs full_analysis (here an oracle: the current report) and
then, when no previous data was passed, returns a dictionary holding only
the url, a no-baseline message and the current data; otherwise it compares
the title text and the pricing-page flag and returns a changes dictionary.
Optional dictionary keys are modelled as Option fields; a key the source
never puts in a branch's dictionary is none there.
-/

namespace CI

/-- Fields of an analysis report that monitor_changes reads, each through a
chain of dict.get with defaults: seo_analysis.title.text (default the empty
string) and pricing_info.has_pricing_page (default False). -/
structure ReportData where
  title_text : Option String
  has_pricing_page : Option Bool
deriving DecidableEq

def titleOf (r : ReportData) : String := r.title_text.getD ""

def pricingOf (r : ReportData) : Bool := r.has_pricing_page.getD false

/-- One entry of the changes list. -/
structure ChangeEntry where
  field : String
  old_value : String
  new_value : String
deriving DecidableEq

/-- Result dictionary of monitor_changes; keys absent from the returned
dictionary are none. -/
structure MonitorResult where
  url : String
  message : Option String
  current_data : Option ReportData
  changes_detected : Option Bool
  changes : Option (List ChangeEntry)
deriving DecidableEq

/-- Python str(bool) rendering used when a pricing change entry stores its
old and new values. -/
def showBool (b : Bool) : String := if b then "True" else "False"

/-- CompetitorIntelligence.monitor_changes over the current report produced
by full_analysis.  previous none models passing no previous_data (the
source guard is the truthiness test `if not previous_data`, which an empty
dictionary also satisfies). -/
def monitor_changes (url : String) (previous : Option ReportData)
    (current : ReportData) : MonitorResult :=
  match previous with
  | none =>
    { url := url,
      message := some "No previous data for comparison",
      current_data := some current,
      changes_detected := none,
      changes := none }
  | some prev =>
    let titleChanges :=
      if titleOf prev ≠ titleOf current then
        [{ field := "title", old_value := titleOf prev, new_value := titleOf current }]
      else []
    let pricingChanges :=
      if pricingOf prev ≠ pricingOf current then
        [{ field := "pricing_page", old_value := showBool (pricingOf prev),
           new_value := showBool (pricingOf current) }]
      else []
    let cs := titleChanges ++ pricingChanges
    { url := url,
      message := none,
      current_data := none,
      changes_detected := some (cs ≠ []),
      changes := some cs }

end CI

/-! ## Parsed documents and the extraction layer (web-scraper.py)

The HTML parser itself is an external capability; a parsed document is
modelled as a tree of element and text nodes.  A document is a root node
(BeautifulSoup's document object, conventionally tagged "[document]") whose
descendants are the page's tags.  BeautifulSoup's find and find_all search
in document (preorder) order.  extract_text_content DESTRUCTIVELY
decomposes script, style, nav, footer, header and aside elements from the
shared parsed document before reading its text, so the document threading
is made explicit here: operations that mutate the soup return the new tree.
-/

namespace WS

mutual
inductive HNode where
  | text (s : String) : HNode
  | elem (tag : String) (attrs : List (String × String)) (children : HForest) : HNode
inductive HForest where
  | nil : HForest
  | cons (n : HNode) (f : HForest) : HForest
end

/-- Attribute lookup, tag.get(k): first binding of k, if any. -/
def getAttr (attrs : List (String × String)) (k : String) : Option String :=
  (attrs.find? (fun p => p.1 = k)).map (fun p => p.2)

/-- Python truthiness of tag.get(k): key present with a nonempty value. -/
def attrTruthy : Option String → Bool
  | some v => v ≠ ""
  | none => false

mutual
/-- BeautifulSoup find over a node: first element in document order (the
node itself, then its descendants) satisfying the tag/attrs predicate. -/
def findNode (p : String → List (String × String) → Bool) :
    HNode → Option (String × List (String × String) × HForest)
  | .text _ => none
  | .elem t a cs => if p t a then some (t, a, cs) else findForest p cs
def findForest (p : String → List (String × String) → Bool) :
    HForest → Option (String × List (String × String) × HForest)
  | .nil => none
  | .cons n f =>
    match findNode p n with
    | some r => some r
    | none => findForest p f
end

mutual
/-- Href values of all anchor tags carrying an href attribute, in document
order: soup.find_all('a', href=True). -/
def anchorHrefsN : HNode → List String
  | .text _ => []
  | .elem t a cs =>
    (if t = "a" then
      match getAttr a "href" with
      | some h => [h]
      | none => []
     else []) ++ anchorHrefsF cs
def anchorHrefsF : HForest → List String
  | .nil => []
  | .cons n f => anchorHrefsN n ++ anchorHrefsF f
end

mutual
/-- Attribute lists of all img tags in document order: soup.find_all('img'). -/
def imgAttrsN : HNode → List (List (String × String))
  | .text _ => []
  | .elem t a cs => (if t = "img" then [a] else []) ++ imgAttrsF cs
def imgAttrsF : HForest → List (List (String × String))
  | .nil => []
  | .cons n f => imgAttrsN n ++ imgAttrsF f
end

mutual
/-- Text-node strings of a subtree in document order. -/
def textsN : HNode → List String
  | .text s => [s]
  | .elem _ _ cs => textsF cs
def textsF : HForest → List String
  | .nil => []
  | .cons n f => textsN n ++ textsF f
end

/-- Tags whose subtrees WebScraper.extract_text_content decomposes when
strip_tags is None. -/
def default_strip_tags : List String := ["script", "style", "nav", "footer", "header", "aside"]

mutual
/-- Result of decomposing every element with a tag in default_strip_tags
from the subtrees of a node (find_all searches descendants, so the node
itself is kept even if its own tag is in the list, matching the soup
document object which is not a tag). -/
def stripNode : HNode → HNode
  | .text s => .text s
  | .elem t a cs => .elem t a (stripForest cs)
def stripForest : HForest → HForest
  | .nil => .nil
  | .cons n f =>
    match n with
    | .text s => .cons (.text s) (stripForest f)
    | .elem t a cs =>
      if t ∈ default_strip_tags then stripForest f
      else .cons (.elem t a (stripForest cs)) (stripForest f)
end

/-- BeautifulSoup get_text(separator, strip=True): the stripped nonempty
text fragments joined by the separator. -/
def getTextSep (sep : String) (n : HNode) : String :=
  Str.joinS sep (((textsN n).map Str.trimS).filter (fun s => s ≠ ""))

/-- Tag.get_text(strip=True) with the default empty separator, as used on
the title tag: applied to the tag's children. -/
def getTextStripF (cs : HForest) : String :=
  Str.joinS "" (((textsF cs).map Str.trimS).filter (fun s => s ≠ ""))

/-- Whitespace cleanup of extract_text_content: split into lines, strip
each, split each line at double spaces, strip the phrases and join the
nonempty chunks with single spaces. -/
def cleanupWhitespace (t : String) : String :=
  let lines := (Str.splitOnS t "\n").map Str.trimS
  let chunks := (lines.map (fun l => (Str.splitOnS l "  ").map Str.trimS)).flatten
  Str.joinS " " (chunks.filter (fun s => s ≠ ""))

/-- WebScraper.extract_text_content with the default strip list: decompose
the unwanted subtrees (mutating the document), then read and clean the
text.  Returns the text together with the document as left mutated. -/
def extract_text_content (soup : HNode) : String × HNode :=
  let stripped := stripNode soup
  (cleanupWhitespace (getTextSep " " stripped), stripped)

/-- String up to the first stop character. -/
def takeUntil (s : String) (stops : List Char) : String :=
  String.mk (s.data.takeWhile (fun c => !stops.contains c))

/-- Host part of a URL: urlparse(u).netloc (empty when u has no scheme
separator, as for relative references). -/
def netloc (u : String) : String :=
  match Str.splitOnS u "://" with
  | [] => ""
  | [_] => ""
  | _ :: rest => takeUntil (Str.joinS "://" rest) ['/', '?', '#']

def urlScheme (u : String) : String := (Str.splitOnS u "://").headD ""

def hasSchemeSep (u : String) : Bool := (Str.splitOnS u "://").length ≥ 2

/-- Path (with no query or fragment) of a URL that has a scheme separator. -/
def pathOf (u : String) : String :=
  match Str.splitOnS u "://" with
  | [] => u
  | [_] => u
  | _ :: rest =>
    takeUntil
      (String.mk ((Str.joinS "://" rest).data.dropWhile
        (fun c => !(['/', '?', '#'].contains c))))
      ['?', '#']

/-- Prefix of a path up to and including its last slash. -/
def upToLastSlash (p : String) : String :=
  String.mk (p.data.reverse.dropWhile (fun c => c ≠ '/')).reverse

/-- Model of urllib.parse.urljoin (an external stdlib capability) for the
reference shapes arising here: empty, absolute, protocol-relative,
root-relative and plain relative references without dot segments. -/
def urljoin (base href : String) : String :=
  if href = "" then base
  else if hasSchemeSep href then href
  else if Str.startsWithS href "//" then urlScheme base ++ ":" ++ href
  else if Str.startsWithS href "/" then urlScheme base ++ "://" ++ netloc base ++ href
  else
    let dir := upToLastSlash (pathOf base)
    urlScheme base ++ "://" ++ netloc base ++ (if dir = "" then "/" else dir) ++ href

/-- De-duplication, list(set(links)): Python's set iteration order is
arbitrary but fixed within a process; it is modelled as keeping the first
occurrence.  The claims below depend only on the underlying set. -/
def dedup (l : List String) : List String :=
  l.foldl (fun acc x => if x ∈ acc then acc else acc ++ [x]) []

/-- WebScraper.extract_links: resolve every anchor href against the base
URL; with internal_only keep only links whose host equals the base host;
de-duplicate. -/
def extract_links (soup : HNode) (base_url : String) (internal_only : Bool) : List String :=
  let base_domain := netloc base_url
  let raw := (anchorHrefsN soup).map (urljoin base_url)
  dedup (if internal_only then raw.filter (fun l => netloc l = base_domain) else raw)

structure ImageData where
  src : String
  alt : String
  title : String
deriving DecidableEq

/-- WebScraper.extract_images: resolve src (default empty) against the base
URL and carry alt and title through with empty-string defaults. -/
def extract_images (soup : HNode) (base_url : String) : List ImageData :=
  (imgAttrsN soup).map (fun a =>
    { src := urljoin base_url ((getAttr a "src").getD ""),
      alt := (getAttr a "alt").getD "",
      title := (getAttr a "title").getD "" })

/-- Metadata dictionary of WebScraper.extract_metadata. -/
structure Metadata where
  url : String
  title : String
  description : String
  keywords : List String
  og_title : String
  og_description : String
  og_image : String
  canonical_url : String
  language : String
  author : String
deriving DecidableEq

/-- Content attribute of the first element with the given tag carrying the
given attribute name and value, kept only when the content is truthy, as in
the repeated pattern of extract_metadata. -/
def findAttrContent (soup : HNode) (tag akey aval ckey : String) : String :=
  match findNode (fun t a => t = tag && getAttr a akey == some aval) soup with
  | some (_, a, _) =>
    let c := getAttr a ckey
    if attrTruthy c then c.getD "" else ""
  | none => ""

/-- WebScraper.extract_metadata over a parsed document.  The canonical link
is matched by string equality of the rel attribute (BeautifulSoup treats
rel as multi-valued; single-valued rel attributes behave identically). -/
def extract_metadata (soup : HNode) (url : String) : Metadata :=
  let title :=
    match findNode (fun t _ => t = "title") soup with
    | some (_, _, cs) => getTextStripF cs
    | none => ""
  let keywordsRaw := findAttrContent soup "meta" "name" "keywords" "content"
  { url := url,
    title := title,
    description := findAttrContent soup "meta" "name" "description" "content",
    keywords :=
      if keywordsRaw = "" then [] else (Str.splitOnS keywordsRaw ",").map Str.trimS,
    og_title := findAttrContent soup "meta" "property" "og:title" "content",
    og_description := findAttrContent soup "meta" "property" "og:description" "content",
    og_image := findAttrContent soup "meta" "property" "og:image" "content",
    canonical_url := findAttrContent soup "link" "rel" "canonical" "href",
    language :=
      match findNode (fun t _ => t = "html") soup with
      | some (_, a, _) =>
        let l := getAttr a "lang"
        if attrTruthy l then l.getD "" else ""
      | none => "",
    author := findAttrContent soup "meta" "name" "author" "content" }

/-- Extracted payload of WebScraper.scrape_page (its url and timestamp keys
carry the call's own argument and clock and are omitted). -/
structure ScrapeExtract where
  metadata : Metadata
  links : List String
  internal_links : List String
  images : List ImageData
  text_content : String
deriving DecidableEq

/-- Extraction part of WebScraper.scrape_page, in source order: metadata,
links, internal links and images are read from the document as passed in;
extract_text_content then decomposes the unwanted subtrees in place, so the
document that later operations (or a re-run) observe is the stripped one,
which is returned alongside the result. -/
def extractAll (soup : HNode) (url : String) : ScrapeExtract × HNode :=
  let md := extract_metadata soup url
  let ls := extract_links soup url false
  let il := extract_links soup url true
  let im := extract_images soup url
  let tc := extract_text_content soup
  ({ metadata := md, links := ls, internal_links := il, images := im,
     text_content := tc.1 }, tc.2)

/-- Dictionary returned by WebScraper.scrape_page: either the error
dictionary for a falsy fetch result or the extracted data. -/
inductive ScrapeResult where
  | errorDict (url : String) : ScrapeResult
  | page (data : ScrapeExtract) : ScrapeResult
deriving DecidableEq

/-- WebScraper.scrape_page: fetch (an exception from fetch_page, such as
tenacity.RetryError, propagates uncaught), return the error dictionary on a
falsy result, otherwise parse (the parser is the external capability parse)
and extract. -/
def scrape_page (url : String) (net : Nat → Except ReqError HttpResponse)
    (parse : String → HNode) : Except ReqError ScrapeResult :=
  match (fetch_page url net).outcome with
  | .error e => .error e
  | .ok none => .ok (.errorDict url)
  | .ok (some html) =>
    if html = "" then .ok (.errorDict url)
    else .ok (.page (extractAll (parse html) url).1)

end WS


/-! ## Claims about SafeScraper.fetch_page -/

namespace SS

theorem fetch_page_cache_hit (s : SafeState) (url : String) (now : Nat)
    (net : Except WS.ReqError (Option String))
    (hb : s.request_count < s.max_requests)
    (hhit : truthy (get_cached_response s url now) = true) :
    fetch_page s url now net =
      { result := .ok (get_cached_response s url now), state := s,
        slept := false, physical := false } := by
  unfold fetch_page
  rw [if_neg (by omega)]
  simp only [hhit, if_true]

theorem fetch_page_success (s : SafeState) (url : String) (now : Nat) (h : String)
    (hb : s.request_count < s.max_requests)
    (hmiss : truthy (get_cached_response s url now) = false)
    (hh : h ≠ "") :
    fetch_page s url now (.ok (some h)) =
      { result := .ok (some h),
        state := { s with request_count := s.request_count + 1,
                          cache := save_to_cache s url h now },
        slept := decide (s.request_count > 0), physical := true } := by
  unfold fetch_page
  rw [if_neg (by omega)]
  simp only [hmiss, Bool.false_eq_true, if_false]
  have ht : truthy (some h) = true := by simp [truthy, hh]
  simp only [ht, if_true, Option.getD]

/-- C4: once requestsMade has reached maxRequests, every further
SafeScraper.fetch_page call returns None without sleeping and without a
physical request, leaving the state untouched, regardless of the cache
contents for the requested key. -/
theorem c4_budget_exhausted_fails_fast (s : SafeState) (url : String) (now : Nat)
    (net : Except WS.ReqError (Option String))
    (h : s.request_count ≥ s.max_requests) :
    fetch_page s url now net =
      { result := .ok none, state := s, slept := false, physical := false } := by
  unfold fetch_page
  rw [if_pos h]

def c4state : SafeState :=
  { request_count := 1, max_requests := 1, cache_enabled := true,
    cache := [(get_cache_key "https://example.com", 0, "<html>cached</html>")] }

set_option maxRecDepth 1000000 in
theorem c4_budget_exhausted_fails_fast_witness :
    c4state.request_count ≥ c4state.max_requests ∧
    truthy (get_cached_response c4state "https://example.com" 0) = true ∧
    fetch_page c4state "https://example.com" 0 (.ok (some "fresh")) =
      { result := .ok none, state := c4state, slept := false, physical := false } :=
  ⟨by decide, by decide,
   c4_budget_exhausted_fails_fast c4state "https://example.com" 0 (.ok (some "fresh"))
     (by decide)⟩

/-- C3 counterexample: a state whose derived key has a fresh, truthy cache
entry but whose budget is exhausted; fetch_page returns None instead of the
cached content, so a fresh cache hit does not bypass the budget check. -/
def c3state : SafeState :=
  { request_count := 1, max_requests := 1, cache_enabled := true,
    cache := [(get_cache_key "https://cached.example.com", 0, "<html>hit</html>")] }

set_option maxRecDepth 1000000 in
theorem c3_counterexample_budget_blocks_fresh_cache_hit :
    get_cached_response c3state "https://cached.example.com" 0 = some "<html>hit</html>" ∧
    (fetch_page c3state "https://cached.example.com" 0 (.ok (some "net"))).result = .ok none ∧
    (fetch_page c3state "https://cached.example.com" 0 (.ok (some "net"))).result ≠
      .ok (some "<html>hit</html>") := by
  refine ⟨by decide, by decide, by decide⟩

/-- C3 amended: when requestsMade is still below maxRequests, a fresh
truthy cache hit is returned immediately with no sleep, no physical request
and no state change; the budget check, however, precedes the cache lookup,
so this does not extend to an exhausted budget. -/
theorem c3_amended_cache_hit_under_budget (s : SafeState) (url : String) (now : Nat)
    (net : Except WS.ReqError (Option String))
    (hb : s.request_count < s.max_requests)
    (hhit : truthy (get_cached_response s url now) = true) :
    fetch_page s url now net =
      { result := .ok (get_cached_response s url now), state := s,
        slept := false, physical := false } :=
  fetch_page_cache_hit s url now net hb hhit

def c3bstate : SafeState :=
  { request_count := 0, max_requests := 5, cache_enabled := true,
    cache := [(get_cache_key "https://cached.example.com", 10, "<html>hit</html>")] }

set_option maxRecDepth 1000000 in
theorem c3_amended_cache_hit_under_budget_witness :
    c3bstate.request_count < c3bstate.max_requests ∧
    truthy (get_cached_response c3bstate "https://cached.example.com" 20) = true ∧
    fetch_page c3bstate "https://cached.example.com" 20 (.error .timeout) =
      { result := .ok (get_cached_response c3bstate "https://cached.example.com" 20),
        state := c3bstate, slept := false, physical := false } :=
  ⟨by decide, by decide,
   c3_amended_cache_hit_under_budget c3bstate "https://cached.example.com" 20
     (.error .timeout) (by decide) (by decide)⟩

end SS

namespace SS

/-- C2: with caching enabled and the budget not exhausted at either call,
after a first physical fetch of a URL succeeds with truthy content, a
second fetch_page of the same URL within the 24-hour TTL returns the cached
content, issues no physical network request, does not sleep the
inter-request delay, and leaves requestsMade unchanged. -/
theorem c2_second_fetch_within_ttl_hits_cache
    (s : SafeState) (url : String) (now1 now2 : Nat) (h : String)
    (net2 : Except WS.ReqError (Option String))
    (hc : s.cache_enabled = true)
    (hb1 : s.request_count < s.max_requests)
    (hmiss : truthy (get_cached_response s url now1) = false)
    (hh : h ≠ "")
    (hb2 : (fetch_page s url now1 (.ok (some h))).state.request_count <
      (fetch_page s url now1 (.ok (some h))).state.max_requests)
    (hfresh : now2 - now1 ≤ ttlSeconds) :
    (fetch_page s url now1 (.ok (some h))).physical = true ∧
    (fetch_page s url now1 (.ok (some h))).state.request_count = s.request_count + 1 ∧
    (fetch_page (fetch_page s url now1 (.ok (some h))).state url now2 net2).result =
      .ok (some h) ∧
    (fetch_page (fetch_page s url now1 (.ok (some h))).state url now2 net2).physical = false ∧
    (fetch_page (fetch_page s url now1 (.ok (some h))).state url now2 net2).slept = false ∧
    (fetch_page (fetch_page s url now1 (.ok (some h))).state url now2 net2).state.request_count =
      (fetch_page s url now1 (.ok (some h))).state.request_count := by
  have e1 := fetch_page_success s url now1 h hb1 hmiss hh
  rw [e1] at hb2 ⊢
  dsimp only at hb2 ⊢
  set s1 : SafeState :=
    { s with request_count := s.request_count + 1,
             cache := save_to_cache s url h now1 } with hs1
  have hns : ¬ (now2 - now1 > ttlSeconds) := by omega
  have hlook : get_cached_response s1 url now2 = some h := by
    simp [get_cached_response, hs1, hc, save_to_cache, lookupCache, hns]
  have hhit : truthy (get_cached_response s1 url now2) = true := by
    rw [hlook]; simp [truthy, hh]
  have e2 := fetch_page_cache_hit s1 url now2 net2 hb2 hhit
  rw [e2, hlook]
  refine ⟨rfl, rfl, rfl, rfl, rfl, rfl⟩

def c2state : SafeState :=
  { request_count := 0, max_requests := 3, cache_enabled := true, cache := [] }

set_option maxRecDepth 1000000 in
theorem c2_second_fetch_within_ttl_hits_cache_witness :
    c2state.cache_enabled = true ∧
    c2state.request_count < c2state.max_requests ∧
    truthy (get_cached_response c2state "https://example.com" 100) = false ∧
    ("<html>page</html>" : String) ≠ "" ∧
    (fetch_page c2state "https://example.com" 100 (.ok (some "<html>page</html>"))).state.request_count <
      (fetch_page c2state "https://example.com" 100 (.ok (some "<html>page</html>"))).state.max_requests ∧
    (3600 : Nat) - 100 ≤ ttlSeconds ∧
    (fetch_page (fetch_page c2state "https://example.com" 100 (.ok (some "<html>page</html>"))).state
      "https://example.com" 3600 (.error .timeout)).result = .ok (some "<html>page</html>") ∧
    (fetch_page (fetch_page c2state "https://example.com" 100 (.ok (some "<html>page</html>"))).state
      "https://example.com" 3600 (.error .timeout)).physical = false :=
  ⟨rfl, by decide, by decide, by decide, by decide, by decide,
   (c2_second_fetch_within_ttl_hits_cache c2state "https://example.com" 100 3600
     "<html>page</html>" (.error .timeout) rfl (by decide) (by decide) (by decide)
     (by decide) (by decide)).2.2.1,
   (c2_second_fetch_within_ttl_hits_cache c2state "https://example.com" 100 3600
     "<html>page</html>" (.error .timeout) rfl (by decide) (by decide) (by decide)
     (by decide) (by decide)).2.2.2.1⟩

theorem fetch_page_state_cases (s : SafeState) (url : String) (now : Nat)
    (net : Except WS.ReqError (Option String)) :
    (fetch_page s url now net).state = s ∨
    (s.request_count < s.max_requests ∧ ∃ c, (fetch_page s url now net).state =
      { s with request_count := s.request_count + 1, cache := c }) := by
  simp only [fetch_page]
  by_cases h1 : s.request_count ≥ s.max_requests
  · rw [if_pos h1]; left; rfl
  · rw [if_neg h1]
    by_cases h2 : truthy (get_cached_response s url now) = true
    · rw [if_pos h2]; left; rfl
    · rw [if_neg h2]
      cases net with
      | error e => left; rfl
      | ok html =>
        dsimp only
        by_cases h3 : truthy html = true
        · rw [if_pos h3]
          right
          exact ⟨by omega, save_to_cache s url (html.getD "") now, rfl⟩
        · rw [if_neg h3]; left; rfl

/-- C10: the session budget invariant: whenever requestsMade is at most
maxRequests before a fetch_page call, it is still at most maxRequests
afterwards, it grows by at most one, maxRequests is unchanged, and the
requests_remaining figure reported by get_session_stats is never
negative. -/
theorem c10_budget_invariant (s : SafeState) (url : String) (now : Nat)
    (net : Except WS.ReqError (Option String))
    (h : s.request_count ≤ s.max_requests) :
    (fetch_page s url now net).state.request_count ≤
      (fetch_page s url now net).state.max_requests ∧
    (fetch_page s url now net).state.request_count ≤ s.request_count + 1 ∧
    (fetch_page s url now net).state.max_requests = s.max_requests ∧
    0 ≤ (get_session_stats (fetch_page s url now net).state).requests_remaining := by
  rcases fetch_page_state_cases s url now net with hst | ⟨hlt, c, hst⟩
  · rw [hst]
    exact ⟨h, by omega, rfl,
      show (0 : Int) ≤ (s.max_requests : Int) - (s.request_count : Int) by omega⟩
  · rw [hst]
    exact ⟨show s.request_count + 1 ≤ s.max_requests by omega,
      Nat.le_refl _, rfl,
      show (0 : Int) ≤ (s.max_requests : Int) - ((s.request_count + 1 : Nat) : Int) by
        push_cast; omega⟩

set_option maxRecDepth 1000000 in
theorem c10_budget_invariant_witness :
    c2state.request_count ≤ c2state.max_requests ∧
    (fetch_page c2state "https://example.com" 0 (.ok (some "x"))).state.request_count ≤
      (fetch_page c2state "https://example.com" 0 (.ok (some "x"))).state.max_requests ∧
    0 ≤ (get_session_stats
      (fetch_page c2state "https://example.com" 0 (.ok (some "x"))).state).requests_remaining :=
  ⟨by decide,
   (c10_budget_invariant c2state "https://example.com" 0 (.ok (some "x")) (by decide)).1,
   (c10_budget_invariant c2state "https://example.com" 0 (.ok (some "x")) (by decide)).2.2.2⟩

end SS

/-! ## Claims about the cache key derivation -/

namespace SS

set_option maxRecDepth 1000000 in
/-- C6 counterexample: two URLs that differ only in the order of their
query parameters (so they are identical after the normalization the
specification describes) derive different cache keys, because
_get_cache_key hashes the raw URL string without normalizing it. -/
theorem c6_counterexample_query_order_changes_key :
    normalize_url "https://example.com/page?a=1&b=2" =
      normalize_url "https://example.com/page?b=2&a=1" ∧
    "https://example.com/page?a=1&b=2" ≠ "https://example.com/page?b=2&a=1" ∧
    get_cache_key "https://example.com/page?a=1&b=2" ≠
      get_cache_key "https://example.com/page?b=2&a=1" := by
  refine ⟨by decide, by decide, by decide⟩

/-- C6 amended: the cache key is the MD5 hex digest of the raw URL byte
string, so it depends only on the URL's UTF-8 encoding: any two URLs with
the same encoded bytes (in particular identical URL strings) derive the
same key; no normalization is applied, so URLs that agree only after
normalization may derive different keys. -/
theorem c6_amended_key_is_function_of_raw_bytes (u1 u2 : String)
    (h : MD5.utf8Bytes u1 = MD5.utf8Bytes u2) :
    get_cache_key u1 = get_cache_key u2 := by
  unfold get_cache_key
  rw [h]

set_option maxRecDepth 1000000 in
theorem c6_amended_key_is_function_of_raw_bytes_witness :
    MD5.utf8Bytes "https://example.com" = MD5.utf8Bytes "https://example.com" ∧
    get_cache_key "https://example.com" = get_cache_key "https://example.com" :=
  ⟨rfl, c6_amended_key_is_function_of_raw_bytes "https://example.com" "https://example.com" rfl⟩

end SS

/-! ## Claim about monitor_changes without a baseline -/

namespace CI

/-- C9: monitor_changes with no previous report returns a dictionary
carrying the url, the explicit no-baseline message and the current report
only; the changes_detected and changes keys are absent (not set to false),
and no error is raised or reported. -/
theorem c9_no_baseline_returns_current_only (url : String) (current : ReportData) :
    monitor_changes url none current =
      { url := url,
        message := some "No previous data for comparison",
        current_data := some current,
        changes_detected := none,
        changes := none } := rfl

end CI

/-! ## Claim about VPN rotation -/

namespace VPN

theorem rotate_vpn_fields (m : VPNManager) (h : m.vpn_configs.length ≠ 0) :
    (rotate_vpn m).2.vpn_configs = m.vpn_configs ∧
    (rotate_vpn m).2.current_vpn_index =
      (m.current_vpn_index + 1) % m.vpn_configs.length ∧
    (rotate_vpn m).2.active_vpn =
      m.vpn_configs[(m.current_vpn_index + 1) % m.vpn_configs.length]? := by
  unfold rotate_vpn
  rw [dif_neg h]
  refine ⟨rfl, rfl, ?_⟩
  simp [List.get_eq_getElem,
    List.getElem?_eq_getElem (Nat.mod_lt _ (Nat.pos_of_ne_zero h))]

theorem rotateN_state (m : VPNManager)
    (hcur : m.current_vpn_index < m.vpn_configs.length) : ∀ j : Nat,
    (rotateN m j).vpn_configs = m.vpn_configs ∧
    (rotateN m j).current_vpn_index =
      (m.current_vpn_index + j) % m.vpn_configs.length ∧
    (0 < j → (rotateN m j).active_vpn =
      m.vpn_configs[(m.current_vpn_index + j) % m.vpn_configs.length]?)
  | 0 => ⟨rfl, (Nat.mod_eq_of_lt hcur).symm, fun hj => absurd hj (by omega)⟩
  | n + 1 => by
    obtain ⟨hconf, hidx, _⟩ := rotateN_state m hcur n
    have hne : (rotateN m n).vpn_configs.length ≠ 0 := by rw [hconf]; omega
    obtain ⟨hc2, hi2, ha2⟩ := rotate_vpn_fields (rotateN m n) hne
    have hstep : rotateN m (n + 1) = (rotate_vpn (rotateN m n)).2 := rfl
    have hidx2 : (rotateN m (n + 1)).current_vpn_index =
        (m.current_vpn_index + (n + 1)) % m.vpn_configs.length := by
      rw [hstep, hi2, hidx, hconf, Nat.mod_add_mod, Nat.add_assoc]
    refine ⟨by rw [hstep, hc2, hconf], hidx2, fun _ => ?_⟩
    rw [hstep, ha2, hconf, hidx, Nat.mod_add_mod, Nat.add_assoc]

/-- C8: for a pool of K >= 1 endpoints whose cursor is valid and whose
active endpoint is the one at the cursor, rotating exactly K times returns
the cursor and the active endpoint to their original values, and after
every rotation the cursor remains a valid index modulo the pool length. -/
theorem c8_rotation_round_robin_closure (m : VPNManager) (K : Nat)
    (hK : m.vpn_configs.length = K) (h1 : 1 ≤ K)
    (hcur : m.current_vpn_index < K)
    (hact : m.active_vpn = m.vpn_configs[m.current_vpn_index]?) :
    (rotateN m K).current_vpn_index = m.current_vpn_index ∧
    (rotateN m K).active_vpn = m.active_vpn ∧
    (∀ j : Nat, (rotateN m j).current_vpn_index < K) := by
  subst hK
  have hcycle : (m.current_vpn_index + m.vpn_configs.length) % m.vpn_configs.length =
      m.current_vpn_index := by
    rw [Nat.add_mod_right, Nat.mod_eq_of_lt hcur]
  obtain ⟨_, hidx, hactK⟩ := rotateN_state m hcur m.vpn_configs.length
  refine ⟨by rw [hidx, hcycle], by rw [hactK (by omega), hcycle, hact], fun j => ?_⟩
  obtain ⟨_, hidxj, _⟩ := rotateN_state m hcur j
  rw [hidxj]
  exact Nat.mod_lt _ (by omega)

def c8pool : VPNManager :=
  { vpn_configs :=
      [{ protocol := "http", host := "proxy1.example.com", port := 8080 },
       { protocol := "socks5", host := "proxy2.example.com", port := 1080 }],
    current_vpn_index := 0,
    active_vpn := some { protocol := "http", host := "proxy1.example.com", port := 8080 } }

theorem c8_rotation_round_robin_closure_witness :
    c8pool.vpn_configs.length = 2 ∧ 1 ≤ 2 ∧ c8pool.current_vpn_index < 2 ∧
    c8pool.active_vpn = c8pool.vpn_configs[c8pool.current_vpn_index]? ∧
    (rotateN c8pool 2).current_vpn_index = c8pool.current_vpn_index ∧
    (rotateN c8pool 2).active_vpn = c8pool.active_vpn :=
  ⟨rfl, by decide, by decide, rfl,
   (c8_rotation_round_robin_closure c8pool 2 rfl (by decide) (by decide) rfl).1,
   (c8_rotation_round_robin_closure c8pool 2 rfl (by decide) (by decide) rfl).2.1⟩

end VPN

/-! ## Claims about WebScraper fetching and extraction -/

namespace WS

set_option maxRecDepth 1000000 in
/-- C1 (code bug): when all three attempts of WebScraper.fetch_page raise a
network exception, the tenacity retry decorator (with no reraise handler
and no exception handling around the decorated call) raises
tenacity.RetryError to the caller rather than returning a tagged value or
None; the same exception escapes WebScraper.scrape_page, whose error
dictionary branch is reachable only for a falsy return value.  The outcome
field of the trace records the exception that escapes.  This contradicts
the function's own docstring, "HTML content as string or None if failed". -/
theorem c1_fetch_page_raises_after_retry_exhaustion :
    (fetch_page "https://example.com" (fun _ => .error .connectionError)).outcome =
      .error .connectionError ∧
    (fetch_page "https://example.com" (fun _ => .error .connectionError)).attempts = 3 ∧
    scrape_page "https://example.com" (fun _ => .error .connectionError)
      (fun _ => .text "") = .error .connectionError := by
  refine ⟨by decide, by decide, by decide⟩

set_option maxRecDepth 1000000 in
/-- C5 counterexample: an HTTP 404 response (a 4xx other than 429) does not
make fetch_page fail immediately on the first attempt: the HTTPError raised
by raise_for_status is re-raised and the retry decorator, which does not
discriminate by exception type, runs all 3 attempts with two backoff waits
before the failure escapes. -/
theorem c5_counterexample_http_404_is_retried :
    (fetch_page "https://example.com"
      (mkNet (.ok ⟨404, "nf"⟩) (.ok ⟨404, "nf"⟩) (.ok ⟨404, "nf"⟩))).attempts = 3 ∧
    (fetch_page "https://example.com"
      (mkNet (.ok ⟨404, "nf"⟩) (.ok ⟨404, "nf"⟩) (.ok ⟨404, "nf"⟩))).waits = [4, 4] ∧
    (fetch_page "https://example.com"
      (mkNet (.ok ⟨404, "nf"⟩) (.ok ⟨404, "nf"⟩) (.ok ⟨404, "nf"⟩))).outcome =
      .error (.httpError 404) := by
  refine ⟨by decide, by decide, by decide⟩

/-- C5 amended: a malformed URL fails immediately on the first attempt with
no retry and no backoff (it returns None rather than raising, so the retry
decorator never fires); every raised exception, however — transient errors
and every HTTPError alike, 4xx included — is retried up to 3 attempts
total, with the exponential backoff waits clamped to the window from 4 to
10 seconds (both inter-attempt waits equal 4 seconds). -/
theorem c5_amended_retry_ignores_error_type :
    (∀ (e1 e2 : ReqError) (r3 : Except ReqError HttpResponse),
      fetch_page "https://example.com" (mkNet (.error e1) (.error e2) r3) =
        { attempts := 3, waits := [4, 4], outcome := fetch_page_once true r3 }) ∧
    (∀ net : Nat → Except ReqError HttpResponse,
      fetch_page "not a url" net = { attempts := 1, waits := [], outcome := .ok none }) := by
  constructor
  · intro e1 e2 r3
    rfl
  · intro net
    rfl

mutual

theorem stripNode_idem : ∀ n : HNode, stripNode (stripNode n) = stripNode n
  | .text _ => rfl
  | .elem t a cs => by
    simp only [stripNode]
    rw [stripForest_idem cs]

theorem stripForest_idem : ∀ f : HForest, stripForest (stripForest f) = stripForest f
  | .nil => rfl
  | .cons n f => by
    cases n with
    | text s =>
      simp only [stripForest]
      rw [stripForest_idem f]
    | elem t a cs =>
      by_cases h : t ∈ default_strip_tags
      · simp only [stripForest, if_pos h]
        exact stripForest_idem f
      · simp only [stripForest, if_neg h]
        rw [stripForest_idem cs, stripForest_idem f]

end

/-- Document exhibiting the C7 counterexample: a nav subtree containing an
anchor, next to an anchor outside it. -/
def navDoc : HNode :=
  .elem "[document]" []
    (.cons
      (.elem "html" []
        (.cons
          (.elem "body" []
            (.cons
              (.elem "nav" []
                (.cons (.elem "a" [("href", "https://ex.com/nav")]
                  (.cons (.text "Nav") .nil)) .nil))
              (.cons (.elem "a" [("href", "https://ex.com/main")]
                (.cons (.text "Main") .nil)) .nil)))
          .nil))
      .nil)

set_option maxRecDepth 1000000 in
/-- C7 counterexample: the first extraction run decomposes the nav subtree
from the shared parsed document, so a second full run on the same document
loses the anchor inside the nav: the two extracted results are not
byte-identical (their link lists differ). -/
theorem c7_counterexample_second_extraction_differs :
    (extractAll (extractAll navDoc "https://ex.com/").2 "https://ex.com/").1 ≠
      (extractAll navDoc "https://ex.com/").1 ∧
    (extractAll navDoc "https://ex.com/").1.links =
      ["https://ex.com/nav", "https://ex.com/main"] ∧
    (extractAll (extractAll navDoc "https://ex.com/").2 "https://ex.com/").1.links =
      ["https://ex.com/main"] := by
  refine ⟨by decide, by decide, by decide⟩

/-- C7 amended: extraction is idempotent only from the second run onward.
The first run strips the script, style, nav, footer, header and aside
subtrees from the shared parsed document; stripping is idempotent, so the
second run leaves the document unchanged, the extracted text content is
already byte-identical between the first and second runs, and the third
run's result is byte-identical to the second run's.  (The first and second
runs may differ in links, internal links, images and metadata whenever the
stripped subtrees contained such material, as the counterexample shows.) -/
theorem c7_amended_extraction_stabilizes_after_first_run
    (soup : HNode) (url : String) :
    (extractAll (extractAll soup url).2 url).2 = (extractAll soup url).2 ∧
    (extractAll (extractAll soup url).2 url).1.text_content =
      (extractAll soup url).1.text_content ∧
    (extractAll (extractAll (extractAll soup url).2 url).2 url).1 =
      (extractAll (extractAll soup url).2 url).1 := by
  have hs := stripNode_idem soup
  refine ⟨?_, ?_, ?_⟩
  · show stripNode (stripNode soup) = stripNode soup
    exact hs
  · show cleanupWhitespace (getTextSep " " (stripNode (stripNode soup))) =
      cleanupWhitespace (getTextSep " " (stripNode soup))
    rw [hs]
  · show (extractAll (stripNode (stripNode soup)) url).1 =
      (extractAll (stripNode soup) url).1
    rw [hs]

end WS
